import Mathlib

/-!
Verification model of the `oc` CLI install handler (`src/oc-install.ts`).

The TypeScript source is shallowly embedded: pure string manipulation is
translated to Lean functions on `String` / `List Char`; the external
collaborators (the `oc-utils.json` lookup table, `valid-url`, the HEAD
reachability probe of `node-fetch`, `curl`, subprocess execution of a
local `oc`, and the filesystem) are passed in explicitly as data, so the
decision logic of the handler is an executable total function.  Rejected
promises and thrown errors are modelled with `Except String`.
-/

namespace OcInstall

/-- Modelled from the spec: `constants.ts` is not under `src/`; the platform
directory segment for Linux is the one appearing in the spec's URLs. -/
def LINUX : String := "linux"

/-- Modelled from the spec: `constants.ts` is not under `src/`; the platform
directory segment for macOS. -/
def MACOSX : String := "macosx"

/-- Modelled from the spec: `constants.ts` is not under `src/`; the platform
directory segment for Windows, as in the spec's URL `<v4base>/4.1/windows/oc.zip`. -/
def WIN : String := "windows"

/-- Modelled from the spec: `constants.ts` is not under `src/`; the tar.gz
archive filename used for Linux and macOS bundles. -/
def OC_TAR_GZ : String := "oc.tar.gz"

/-- Modelled from the spec: `constants.ts` is not under `src/`; the zip archive
filename used for Windows bundles, as in `<v4base>/4.1/windows/oc.zip`. -/
def OC_ZIP : String := "oc.zip"

/-- Modelled from the spec: `constants.ts` is not under `src/`; the literal
`latest` URL segment of `resolveLatestStable`. -/
def LATEST : String := "latest"

/-- Modelled from the spec: the external static lookup table read by
`getOcUtils` from `oc-utils.json` (the data file is not under `src/`).  It
exposes the two mirror base URLs and maps keys `"oc" ++ MAJOR.MINOR` to the
latest known patch version string of that line (`latestPatch` returns `none`
for an absent key, matching a falsy `undefined` lookup in the source). -/
structure OcUtils where
  openshiftV3BaseUrl : String
  openshiftV4BaseUrl : String
  latestPatch : String → Option String

/-- Maximal leading digit run of a character list, together with the rest
(helper for embedding the JavaScript regular expressions of the source). -/
def digitRun : List Char → List Char × List Char
  | [] => ([], [])
  | c :: cs =>
    if c.isDigit then
      let (d, r) := digitRun cs
      (c :: d, r)
    else ([], c :: cs)

/-- Digit list to number, as the unary `+` conversion of
`oc-install.ts` line 137 applied to the digits matched by the regex. -/
def digitsToNat (l : List Char) : Nat :=
  l.foldl (fun n c => n * 10 + (c.toNat - '0'.toNat)) 0

/-- One attempt of the regex `\d+(?=\.)` at the current position: the digit
run starting here must be nonempty and be immediately followed by a dot
(backtracking inside the run is impossible because a digit is never a dot). -/
def tryMajorAt (l : List Char) : Option (List Char) :=
  match digitRun l with
  | ([], _) => none
  | (d, '.' :: _) => some d
  | _ => none

/-- `RegExp('\\d+(?=\\.)').exec` of `oc-install.ts` line 131: leftmost maximal
digit run immediately followed by a dot. -/
def majorExec : List Char → Option (List Char)
  | [] => none
  | c :: cs =>
    match tryMajorAt (c :: cs) with
    | some d => some d
    | none => majorExec cs

/-- One attempt of the regex `\d+\.\d+(?=\.)` at the current position:
digit run, dot, digit run, followed by a further dot. -/
def tryMinorAt (l : List Char) : Option (List Char) :=
  match digitRun l with
  | ([], _) => none
  | (d1, '.' :: r2) =>
    match digitRun r2 with
    | ([], _) => none
    | (d2, '.' :: _) => some (d1 ++ '.' :: d2)
    | _ => none
  | _ => none

/-- `RegExp('\\d+\\.\\d+(?=\\.)').exec` of `oc-install.ts` line 142: leftmost
`MAJOR.MINOR` immediately followed by a dot. -/
def minorExec : List Char → Option (List Char)
  | [] => none
  | c :: cs =>
    match tryMinorAt (c :: cs) with
    | some d => some d
    | none => minorExec cs

/-- The leading-`v` strip of `oc-install.ts` lines 125-127
(`version.startsWith('v')` followed by `version.substr(1)`). -/
def stripV (s : String) : String :=
  match s.data with
  | 'v' :: rest => String.mk rest
  | _ => s

/-- `InstallHandler.getOcBundleByOS` (`oc-install.ts` lines 179-202): switch on
the OS identifier producing the platform-segment/archive-filename bundle. -/
def getOcBundleByOS (osType : String) : Option String :=
  if osType = "Linux" then some (LINUX ++ "/" ++ OC_TAR_GZ)
  else if osType = "Darwin" then some (MACOSX ++ "/" ++ OC_TAR_GZ)
  else if osType = "Windows_NT" then some (WIN ++ "/" ++ OC_ZIP)
  else none

/-- `InstallHandler.latestStable` (`oc-install.ts` lines 89-102): the v4 base
URL, the literal `latest` segment and the OS bundle, or `none` for an
unsupported OS. -/
def latestStable (utils : OcUtils) (osType : String) : Option String :=
  match getOcBundleByOS osType with
  | none => none
  | some bundle => some (utils.openshiftV4BaseUrl ++ "/" ++ LATEST ++ "/" ++ bundle)

/-- `InstallHandler.ocBundleURL` (`oc-install.ts` lines 113-177): empty version
rejected; leading `v` stripped; major extracted by `\d+(?=\.)` from the
stripped version; with the `latest` flag the `MAJOR.MINOR` line is extracted by
`\d+\.\d+(?=\.)` and replaced by the table's latest patch (a missing or empty
entry is falsy and yields `none`); major 3/4 selects the mirror base, any
other major yields `none`; finally the OS bundle is appended. -/
def ocBundleURL (utils : OcUtils) (version osType : String) (latest : Bool) :
    Option String :=
  if version = "" then none
  else
    let v := stripV version
    match majorExec v.data with
    | none => none
    | some majDigits =>
      let vMajor := digitsToNat majDigits
      match (if latest then
               match minorExec v.data with
               | none => none
               | some baseVersion =>
                 match utils.latestPatch ("oc" ++ String.mk baseVersion) with
                 | none => none
                 | some p => if p = "" then none else some p
             else some v) with
      | none => none
      | some ver =>
        match (if vMajor = 3 then some utils.openshiftV3BaseUrl
               else if vMajor = 4 then some utils.openshiftV4BaseUrl
               else none) with
        | none => none
        | some base =>
          match getOcBundleByOS osType with
          | none => none
          | some bundle => some (base ++ "/" ++ ver ++ "/" ++ bundle)

/-- The external collaborators of `InstallHandler.installOc`, passed as data:
`isWebUri` models the `valid-url` check, `probeOk` the `response.ok` of a HEAD
fetch that resolved for a non-null candidate URL (lines 59-62; network-level
failures of a resolved-URL fetch are outside the model), `download` the
outcome of `downloadAndExtract` for a given URL, and `localOc` the outcome of
`getLocalOcPath` for the requested version. -/
structure InstallEnv where
  isWebUri : String → Bool
  probeOk : String → Bool
  download : String → Option String
  localOc : String → Option String

/-- The body of `InstallHandler.installOc` after the local-`oc` shortcut
(`oc-install.ts` lines 37-81): empty version resolved through `latestStable`
(rejecting when that is `none`); a well-formed URL used verbatim; otherwise
`ocBundleURL` without the latest flag.  The HEAD fetch of that candidate URL
is unconditional, so when the first resolution is null, node-fetch receives
null, coerces it to a non-absolute URL and throws
`TypeError('Only absolute URLs are supported')`, which rejects the whole
install before the fixed null-URL message can be reached; only when the first
URL is non-null and its probe is not ok does the fallback resolution run, and
only a null fallback reaches the fixed
`Unable to determine oc download URL.` rejection.  A `none` extraction
rejects with the source's fixed message string. -/
def installOcCore (utils : OcUtils) (env : InstallEnv)
    (downloadVersion osType : String) : Except String String :=
  match (if downloadVersion = "" then latestStable utils osType
         else some downloadVersion) with
  | none => .error "Unable to determine latest oc download URL"
  | some dv =>
    let urlStep : Except String (Option String) :=
      if env.isWebUri dv then .ok (some dv)
      else
        match ocBundleURL utils dv osType false with
        | none => .error "Only absolute URLs are supported"
        | some u1 =>
          if env.probeOk u1 then .ok (some u1)
          else .ok (ocBundleURL utils dv osType true)
    match urlStep with
    | .error e => .error e
    | .ok none => .error "Unable to determine oc download URL."
    | .ok (some u) =>
      match env.download u with
      | none => .error "Unable to download or extract oc binary."
      | some p => .ok p

/-- `InstallHandler.installOc` (`oc-install.ts` lines 25-82): when `useLocalOc`
is set and a truthy local path is found it is returned directly, otherwise the
resolution/download pipeline of `installOcCore` runs. -/
def installOc (utils : OcUtils) (env : InstallEnv)
    (downloadVersion osType : String) (useLocalOc : Bool) :
    Except String String :=
  match (if useLocalOc then env.localOc downloadVersion else none) with
  | some p =>
    if p = "" then installOcCore utils env downloadVersion osType else .ok p
  | none => installOcCore utils env downloadVersion osType

/-- Model of Node's `path.join` for a directory and a separator-free filename:
the two joined with `/`. -/
def pathJoin (dir file : String) : String := dir ++ "/" ++ file

/-- JavaScript `String.prototype.split` with a one-character separator, on
character lists (always nonempty; splitting the empty string gives `[[]]`). -/
def splitOnChar (sep : Char) : List Char → List (List Char)
  | [] => [[]]
  | c :: cs =>
    let r := splitOnChar sep cs
    if c = sep then [] :: r
    else
      match r with
      | [] => [[c]]
      | h :: t => (c :: h) :: t

/-- The archive name of `downloadAndExtract` (`oc-install.ts` lines 227-228):
the final segment of `url.split('/')`. -/
def urlArchiveName (url : String) : String :=
  String.mk ((splitOnChar '/' url.data).getLastD [])

/-- Outcome of the download phase: the archive path (`none` models the source
returning null for an empty URL), the filesystem after the call, and whether
the network transfer (`curl`) ran. -/
structure DownloadOutcome where
  archivePath : Option String
  fs : List String
  network : Bool
deriving DecidableEq

/-- The download phase of `InstallHandler.downloadAndExtract` (`oc-install.ts`
lines 217-240): empty URL gives null; a missing download directory throws; the
archive is named after the final `/`-separated segment of the URL and `curl`
runs only when that file does not already exist.  The filesystem is the list
of existing paths; `curl -o archivePath` creates the archive file. -/
def downloadArchive (fs : List String) (url downloadDir : String) :
    Except String DownloadOutcome :=
  if url = "" then .ok ⟨none, fs, false⟩
  else if downloadDir ∈ fs then
    let archive := urlArchiveName url
    let archivePath := pathJoin downloadDir archive
    if archivePath ∈ fs then .ok ⟨some archivePath, fs, false⟩
    else .ok ⟨some archivePath, archivePath :: fs, true⟩
  else .error (downloadDir ++ " does not exist.")

/-- Index of the last occurrence of a character, as JavaScript
`String.prototype.lastIndexOf` (`none` models `-1`). -/
def listLastIdx (l : List Char) (c : Char) : Option Nat :=
  match l with
  | [] => none
  | a :: as =>
    match listLastIdx as c with
    | some i => some (i + 1)
    | none => if a = c then some 0 else none

/-- Model of Node's `path.extname` on a separator-free filename: the suffix
from the last dot, empty when there is no dot or the only dot is leading. -/
def extname (name : String) : String :=
  match listLastIdx name.data '.' with
  | none => ""
  | some 0 => ""
  | some i => String.mk (name.data.drop i)

/-- First-occurrence replacement on character lists, as JavaScript
`String.prototype.replace` with a string pattern (an empty pattern inserts the
replacement at the start). -/
def listReplaceFirst (s pat rep : List Char) : List Char :=
  match s with
  | [] => if pat.isEmpty then rep else []
  | c :: cs =>
    if pat.isPrefixOf (c :: cs) then rep ++ (c :: cs).drop pat.length
    else c :: listReplaceFirst cs pat rep

/-- JavaScript `String.prototype.replace` with a string pattern, on `String`. -/
def replaceFirst (s pat rep : String) : String :=
  String.mk (listReplaceFirst s.data pat.data rep.data)

/-- The archive-type derivation of `downloadAndExtract` (`oc-install.ts` lines
242-248): the extension of the archive name, upgraded to `.tar.gz` when the
name with the extension removed still ends in `.tar`. -/
def archiveTypeOf (archive : String) : String :=
  let archiveType := extname archive
  let expandDir := replaceFirst archive archiveType ""
  if extname expandDir = ".tar" then ".tar.gz" else archiveType

/-- The two extraction routes of the source: `adm-zip` whole-archive
extraction, or `decompress` with the tar-gzip plugin. -/
inductive ExtractAction where
  | zip : ExtractAction
  | targz : ExtractAction
deriving DecidableEq

/-- The extraction dispatch of `downloadAndExtract` (`oc-install.ts` lines
252-269): `.zip` extracts as zip, `.tgz` and `.tar.gz` as tar-gzip, and any
other archive type throws `unknown archive format` followed by the archive
path. -/
def extractDispatch (archivePath archiveType : String) :
    Except String ExtractAction :=
  if archiveType = ".zip" then .ok .zip
  else if archiveType = ".tgz" then .ok .targz
  else if archiveType = ".tar.gz" then .ok .targz
  else .error ("unknown archive format " ++ archivePath)

/-- The directory part of a path, as `ocPath.substr(0, ocPath.lastIndexOf(sep))`
of `oc-install.ts` lines 303 and 306 (empty when the separator is absent,
matching `substr(0, -1)`). -/
def containingDir (ocPath : String) (sep : Char) : String :=
  match listLastIdx ocPath.data sep with
  | none => ""
  | some i => String.mk (ocPath.data.take i)

/-- `InstallHandler.addOcToPath` (`oc-install.ts` lines 297-309), with the
PATH variable threaded explicitly: an empty path (the TypeScript null
collapses to the empty string) throws `path cannot be null or empty`;
otherwise the containing directory — split on `\` for `Windows_NT` and on `/`
otherwise — is prepended to PATH with `;` respectively `:`. -/
def addOcToPath (ocPath osType pathVar : String) : Except String String :=
  if ocPath = "" then .error "path cannot be null or empty"
  else if osType = "Windows_NT" then
    .ok (containingDir ocPath '\\' ++ ";" ++ pathVar)
  else
    .ok (containingDir ocPath '/' ++ ":" ++ pathVar)

/-- ASCII lowering of one character, as JavaScript `toLowerCase` acts on the
ASCII range. -/
def asciiLowerChar (c : Char) : Char :=
  if 'A' ≤ c ∧ c ≤ 'Z' then Char.ofNat (c.toNat + 32) else c

/-- JavaScript `String.prototype.toLowerCase` (ASCII range). -/
def jsToLower (s : String) : String := String.mk (s.data.map asciiLowerChar)

/-- Result of a subprocess run of the local `oc`, as the `IExecSyncResult`
consumed by `getOcVersion` (empty strings model falsy missing streams). -/
structure ExecResult where
  stdout : String
  stderr : String
deriving DecidableEq

/-- Greedy backtracking for one `+`-quantified atom: try the continuation
after consuming `k+1`, `k`, ... , `1` characters, preferring the longest. -/
def tryLen (l : List Char) (cont : List Char → Option (List Char)) :
    Nat → Option (List Char)
  | 0 => none
  | k + 1 =>
    match cont (l.drop (k + 1)) with
    | some r => some (l.take (k + 1) ++ r)
    | none => tryLen l cont k

/-- `[0-9]+` followed by a continuation: greedy over the maximal leading digit
run, backtracking down to one digit. -/
def tryDigitsThen (l : List Char) (cont : List Char → Option (List Char)) :
    Option (List Char) :=
  tryLen l cont (digitRun l).1.length

/-- An unescaped `.` of the regex: consumes exactly one arbitrary character. -/
def tryAnyThen (l : List Char) (cont : List Char → Option (List Char)) :
    Option (List Char) :=
  match l with
  | [] => none
  | c :: rest => (cont rest).map (fun r => c :: r)

/-- The final `[0-9]+` of the version regex: greedy maximal digit run with
nothing after it to satisfy. -/
def digitsTail (l : List Char) : Option (List Char) :=
  match digitRun l with
  | ([], _) => none
  | (d, _) => some d

/-- One attempt of `RegExp('v[0-9]+.[0-9]+.[0-9]+')` (`oc-install.ts` line
358; the dots are unescaped and match any character) at the current
position. -/
def ocVersionTry (l : List Char) : Option (List Char) :=
  match l with
  | 'v' :: rest =>
    (tryDigitsThen rest (fun l1 =>
      tryAnyThen l1 (fun l2 =>
        tryDigitsThen l2 (fun l3 =>
          tryAnyThen l3 digitsTail)))).map (fun r => 'v' :: r)
  | _ => none

/-- `RegExp('v[0-9]+.[0-9]+.[0-9]+').exec`: leftmost match over the string. -/
def ocVersionScan : List Char → Option (List Char)
  | [] => none
  | c :: cs =>
    match ocVersionTry (c :: cs) with
    | some m => some m
    | none => ocVersionScan cs

/-- The tail of `InstallHandler.getOcVersion` (`oc-install.ts` lines 352-365):
an absent result or empty stdout gives `none`; otherwise the version regex is
run over stdout and its match returned. -/
def ocVersionFromResult (result : Option ExecResult) : Option String :=
  match result with
  | none => none
  | some r =>
    if r.stdout = "" then none
    else
      match ocVersionScan r.stdout.data with
      | none => none
      | some m => some (String.mk m)

/-- `InstallHandler.getOcVersion` (`oc-install.ts` lines 340-366) with the two
possible subprocess results passed in: the `version --short` result is
discarded when absent or when its stderr is truthy, falling back to the plain
`version` result, after which `ocVersionFromResult` extracts the version. -/
def getOcVersion (shortResult plainResult : Option ExecResult) : Option String :=
  ocVersionFromResult
    (match shortResult with
     | none => plainResult
     | some r => if r.stderr ≠ "" then plainResult else some r)

/-- `InstallHandler.getLocalOcPath` (`oc-install.ts` lines 317-338) with the
`tl.which` outcome and the version query passed in: no local `oc` gives
`none`; with a falsy requested version any found path is returned; otherwise
the reported local version must compare equal to the requested one after
JavaScript `toLowerCase` on both sides. -/
def getLocalOcPath (getVer : String → Option String) (version : Option String)
    (whichOc : Option String) : Option String :=
  match whichOc with
  | none => none
  | some ocPath =>
    match version with
    | none => some ocPath
    | some v =>
      if v = "" then some ocPath
      else
        match getVer ocPath with
        | none => none
        | some localOcVersion =>
          if jsToLower localOcVersion = jsToLower v then some ocPath else none

/-- Modelled from the spec: a sample instance of the external `oc-utils.json`
table, with the mirror base URLs of the spec's scenarios and `4.1.5` as the
latest known patch of the `4.1` line. -/
def sampleUtils : OcUtils where
  openshiftV3BaseUrl := "https://mirror.openshift.com/pub/openshift-v3/clients"
  openshiftV4BaseUrl := "https://mirror.openshift.com/pub/openshift-v4/clients/oc"
  latestPatch := fun key => if key = "oc4.1" then some "4.1.5" else none

/-- Sample environment for the end-to-end scenario: no input is a literal URL,
every reachability probe fails, and the downloader echoes the URL it was
given, so the returned path shows which URL was downloaded. -/
def probeFailEnv : InstallEnv where
  isWebUri := fun _ => false
  probeOk := fun _ => false
  download := fun u => some u
  localOc := fun _ => none

/-- Sample environment for the error taxonomy: only the one literal URL is
recognised as a web URI, probes fail, and every download fails. -/
def plainEnv : InstallEnv where
  isWebUri := fun s => s = "http://x/oc.zip"
  probeOk := fun _ => false
  download := fun _ => none
  localOc := fun _ => none

/-! ## Helper lemmas -/

theorem ocVersionTry_starts_v (l m : List Char) (h : ocVersionTry l = some m) :
    ∃ t, m = 'v' :: t := by
  unfold ocVersionTry at h
  split at h
  next rest =>
    obtain ⟨r, -, hr⟩ := Option.map_eq_some'.mp h
    exact ⟨r, hr.symm⟩
  next => simp at h

theorem ocVersionScan_starts_v (l : List Char) :
    ∀ m : List Char, ocVersionScan l = some m → ∃ t, m = 'v' :: t := by
  induction l with
  | nil => intro m h; simp [ocVersionScan] at h
  | cons c cs ih =>
    intro m h
    cases htry : ocVersionTry (c :: cs) with
    | some m' =>
      have hs : ocVersionScan (c :: cs) = some m' := by
        simp [ocVersionScan, htry]
      rw [hs] at h
      obtain rfl : m' = m := by simpa using h
      exact ocVersionTry_starts_v _ _ htry
    | none =>
      have hs : ocVersionScan (c :: cs) = ocVersionScan cs := by
        simp [ocVersionScan, htry]
      rw [hs] at h
      exact ih m h

theorem ocVersionFromResult_starts_v (res : Option ExecResult) (s : String)
    (h : ocVersionFromResult res = some s) : ∃ t, s = String.mk ('v' :: t) := by
  unfold ocVersionFromResult at h
  split at h
  next => simp at h
  next r =>
    split at h
    next => simp at h
    next =>
      split at h
      next => simp at h
      next =>
        rename_i m heq
        obtain rfl : String.mk m = s := by simpa using h
        obtain ⟨t, rfl⟩ := ocVersionScan_starts_v _ m heq
        exact ⟨t, rfl⟩

theorem getOcVersion_starts_v (r1 r2 : Option ExecResult) (s : String)
    (h : getOcVersion r1 r2 = some s) : ∃ t, s = String.mk ('v' :: t) :=
  ocVersionFromResult_starts_v _ s h

/-! ## Claims -/

/-- C1 counterexample: although the sample table has a latest-patch entry for
line 4.1 and the first resolution of version input `4.1` on `Windows_NT`
yields `<v4base>/4.1/windows/oc.zip`, the fallback resolution attempt with the
latest flag returns null rather than a non-null URL, because the `MAJOR.MINOR`
regex requires the pattern to be followed by a further dot. -/
theorem claim_C1_counterexample :
    sampleUtils.latestPatch "oc4.1" = some "4.1.5"
    ∧ ocBundleURL sampleUtils "4.1" "Windows_NT" false
        = some "https://mirror.openshift.com/pub/openshift-v4/clients/oc/4.1/windows/oc.zip"
    ∧ ocBundleURL sampleUtils "4.1" "Windows_NT" true = none :=
  ⟨rfl, rfl, rfl⟩

/-- C1 (amended): for version input `4.1` on `Windows_NT` the resolver first
produces `<v4base>/4.1/windows/oc.zip`; when the reachability probe fails, the
single fallback attempt with the latest flag returns null (the `MAJOR.MINOR`
extraction needs a following dot, i.e. a patch component), so the install
rejects.  For an input with a patch component such as `4.1.0`, the fallback
extracts `4.1`, substitutes the table's latest patch `4.1.5`, and the install
downloads the non-null URL embedding that patch version. -/
theorem claim_C1_amended :
    ocBundleURL sampleUtils "4.1" "Windows_NT" false
        = some "https://mirror.openshift.com/pub/openshift-v4/clients/oc/4.1/windows/oc.zip"
    ∧ ocBundleURL sampleUtils "4.1" "Windows_NT" true = none
    ∧ installOc sampleUtils probeFailEnv "4.1" "Windows_NT" false
        = .error "Unable to determine oc download URL."
    ∧ minorExec (stripV "4.1.0").data = some ['4', '.', '1']
    ∧ ocBundleURL sampleUtils "4.1.0" "Windows_NT" true
        = some "https://mirror.openshift.com/pub/openshift-v4/clients/oc/4.1.5/windows/oc.zip"
    ∧ installOc sampleUtils probeFailEnv "4.1.0" "Windows_NT" false
        = .ok "https://mirror.openshift.com/pub/openshift-v4/clients/oc/4.1.5/windows/oc.zip" :=
  ⟨rfl, rfl, rfl, rfl, rfl, rfl⟩

/-- C2 counterexample: the orchestration rejects with the source's string
`Unable to determine latest oc download URL`, which is not the error-taxonomy
string `unable to determine latest download URL` the claim asserts; and when
version resolution is already null before the probe, the HEAD fetch of the
null URL throws, so the install rejects with the node-fetch TypeError message
rather than any fixed null-URL message. -/
theorem claim_C2_counterexample :
    installOc sampleUtils plainEnv "" "fakeOS" false
        = .error "Unable to determine latest oc download URL"
    ∧ "Unable to determine latest oc download URL"
        ≠ "unable to determine latest download URL"
    ∧ installOc sampleUtils plainEnv "5.0.0" "Linux" false
        = .error "Only absolute URLs are supported" :=
  ⟨rfl, by decide, rfl⟩

/-- C2 (amended): the install orchestration rejects with exactly the source's
fixed strings: `Unable to determine latest oc download URL` when latest-stable
resolution is null, and `Unable to download or extract oc binary.` when
extraction yields null.  The fixed string
`Unable to determine oc download URL.` is rejected with exactly when the
first version resolution is non-null, its reachability probe is not ok, and
the fallback resolution is null; when the first resolution is already null,
the HEAD fetch of the null URL throws
`TypeError('Only absolute URLs are supported')` and the install rejects with
that TypeError instead of the fixed message. -/
theorem claim_C2_amended :
    (∀ (utils : OcUtils) (env : InstallEnv) (osType : String),
        latestStable utils osType = none →
        installOc utils env "" osType false
          = .error "Unable to determine latest oc download URL")
    ∧ (∀ (utils : OcUtils) (env : InstallEnv) (dv osType u1 : String),
        dv ≠ "" → env.isWebUri dv = false →
        ocBundleURL utils dv osType false = some u1 →
        env.probeOk u1 = false →
        ocBundleURL utils dv osType true = none →
        installOc utils env dv osType false
          = .error "Unable to determine oc download URL.")
    ∧ (∀ (utils : OcUtils) (env : InstallEnv) (dv osType : String), dv ≠ "" →
        env.isWebUri dv = false →
        ocBundleURL utils dv osType false = none →
        installOc utils env dv osType false
          = .error "Only absolute URLs are supported")
    ∧ (∀ (utils : OcUtils) (env : InstallEnv) (dv osType : String), dv ≠ "" →
        env.isWebUri dv = true → env.download dv = none →
        installOc utils env dv osType false
          = .error "Unable to download or extract oc binary.") := by
  refine ⟨?_, ?_, ?_, ?_⟩
  · intro utils env os h
    simp [installOc, installOcCore, h]
  · intro utils env dv os u1 h1 h2 h3 h4 h5
    simp [installOc, installOcCore, h1, h2, h3, h4, h5]
  · intro utils env dv os h1 h2 h3
    simp [installOc, installOcCore, h1, h2, h3]
  · intro utils env dv os h1 h2 h3
    simp [installOc, installOcCore, h1, h2, h3]

/-- C2 witness: the four rejection branches at concrete inputs; for the fixed
null-URL message the first resolution of `4.1` is non-null, its probe fails,
and the fallback is null, while `5.0.0` is null already at the first
resolution and rejects with the fetch TypeError. -/
theorem claim_C2_witness :
    installOc sampleUtils plainEnv "" "fakeOS" false
        = .error "Unable to determine latest oc download URL"
    ∧ installOc sampleUtils plainEnv "4.1" "Windows_NT" false
        = .error "Unable to determine oc download URL."
    ∧ installOc sampleUtils plainEnv "5.0.0" "Linux" false
        = .error "Only absolute URLs are supported"
    ∧ installOc sampleUtils plainEnv "http://x/oc.zip" "Linux" false
        = .error "Unable to download or extract oc binary." :=
  ⟨claim_C2_amended.1 sampleUtils plainEnv "fakeOS" (by decide),
   claim_C2_amended.2.1 sampleUtils plainEnv "4.1" "Windows_NT"
     "https://mirror.openshift.com/pub/openshift-v4/clients/oc/4.1/windows/oc.zip"
     (by decide) (by decide) (by decide) (by decide) (by decide),
   claim_C2_amended.2.2.1 sampleUtils plainEnv "5.0.0" "Linux" (by decide)
     (by decide) (by decide),
   claim_C2_amended.2.2.2 sampleUtils plainEnv "http://x/oc.zip" "Linux"
     (by decide) (by decide) (by decide)⟩

/-- C3: the download phase is idempotent.  When the file named after the
URL's final path segment already exists in the destination directory the
network transfer is skipped and the filesystem is unchanged; and after any
successful download call, a second call with the same URL and directory
performs no network transfer and yields the same archive path. -/
theorem claim_C3_downloadIdempotent :
    ∀ (fs : List String) (url dir : String), dir ∈ fs →
      (url ≠ "" → pathJoin dir (urlArchiveName url) ∈ fs →
        downloadArchive fs url dir
          = .ok ⟨some (pathJoin dir (urlArchiveName url)), fs, false⟩)
      ∧ (∀ o : DownloadOutcome, downloadArchive fs url dir = .ok o →
          downloadArchive o.fs url dir = .ok ⟨o.archivePath, o.fs, false⟩) := by
  intro fs url dir hdir
  constructor
  · intro hurl hmem
    simp [downloadArchive, hurl, hdir, hmem]
  · intro o h
    by_cases hurl : url = ""
    · subst hurl
      have h1 : downloadArchive fs "" dir = .ok ⟨none, fs, false⟩ := by
        simp [downloadArchive]
      rw [h1, Except.ok.injEq] at h
      subst h
      exact h1
    · by_cases hmem : pathJoin dir (urlArchiveName url) ∈ fs
      · have h1 : downloadArchive fs url dir
            = .ok ⟨some (pathJoin dir (urlArchiveName url)), fs, false⟩ := by
          simp [downloadArchive, hurl, hdir, hmem]
        rw [h1, Except.ok.injEq] at h
        subst h
        exact h1
      · have h1 : downloadArchive fs url dir
            = .ok ⟨some (pathJoin dir (urlArchiveName url)),
                pathJoin dir (urlArchiveName url) :: fs, true⟩ := by
          simp [downloadArchive, hurl, hdir, hmem]
        rw [h1, Except.ok.injEq] at h
        subst h
        have hdir2 : dir ∈ pathJoin dir (urlArchiveName url) :: fs :=
          List.mem_cons_of_mem _ hdir
        simp [downloadArchive, hurl, hdir2]

/-- C3 witness: with the archive already present the transfer is skipped, and
a second call after a fresh download repeats neither the transfer nor changes
the path. -/
theorem claim_C3_witness :
    downloadArchive ["/dl", "/dl/oc.zip"] "http://h/oc.zip" "/dl"
        = .ok ⟨some "/dl/oc.zip", ["/dl", "/dl/oc.zip"], false⟩
    ∧ downloadArchive ["/dl/oc.zip", "/dl"] "http://h/oc.zip" "/dl"
        = .ok ⟨some "/dl/oc.zip", ["/dl/oc.zip", "/dl"], false⟩ :=
  ⟨(claim_C3_downloadIdempotent ["/dl", "/dl/oc.zip"] "http://h/oc.zip" "/dl"
      (by decide)).1 (by decide) (by decide),
   (claim_C3_downloadIdempotent ["/dl"] "http://h/oc.zip" "/dl"
      (by decide)).2 ⟨some "/dl/oc.zip", ["/dl/oc.zip", "/dl"], true⟩ rfl⟩

/-- C4: `addOcToPath` throws `path cannot be null or empty` exactly on the
empty (null) executable path; on every other path it prepends the containing
directory, computed with the backslash separator for `Windows_NT` and slash
otherwise, joined to the old PATH by the matching list separator. -/
theorem claim_C4_addOcToPath :
    (∀ (osType pathVar : String),
        addOcToPath "" osType pathVar = .error "path cannot be null or empty")
    ∧ (∀ (ocPath osType pathVar : String), ocPath ≠ "" →
        addOcToPath ocPath osType pathVar
          = .ok (containingDir ocPath
                (if osType = "Windows_NT" then '\\' else '/')
              ++ (if osType = "Windows_NT" then ";" else ":") ++ pathVar))
    ∧ (∀ (ocPath osType pathVar e : String),
        addOcToPath ocPath osType pathVar = .error e →
        ocPath = "" ∧ e = "path cannot be null or empty")
    ∧ (∀ pathVar : String,
        addOcToPath "/a/b/oc" "Linux" pathVar
          = .ok ("/a/b" ++ ":" ++ pathVar)) := by
  refine ⟨fun os p => rfl, ?_, ?_, fun p => rfl⟩
  · intro oc os p h
    by_cases hw : os = "Windows_NT"
    · simp [addOcToPath, h, hw]
    · simp [addOcToPath, h, hw]
  · intro oc os p e h
    by_cases h0 : oc = ""
    · subst h0
      simp [addOcToPath] at h
      exact ⟨rfl, h.symm⟩
    · by_cases hw : os = "Windows_NT" <;> simp [addOcToPath, h0, hw] at h

/-- C4 witness: the Windows and Linux prepend shapes and the empty-path
error at concrete inputs. -/
theorem claim_C4_witness :
    addOcToPath "C:\\tools\\oc.exe" "Windows_NT" "P"
        = .ok ("C:\\tools" ++ ";" ++ "P")
    ∧ addOcToPath "/a/b/oc" "Linux" "P" = .ok ("/a/b" ++ ":" ++ "P")
    ∧ addOcToPath "" "Linux" "P" = .error "path cannot be null or empty" :=
  ⟨claim_C4_addOcToPath.2.1 "C:\\tools\\oc.exe" "Windows_NT" "P" (by decide),
   claim_C4_addOcToPath.2.2.2 "P",
   claim_C4_addOcToPath.1 "Linux" "P"⟩

/-- C5: for each supported OS, `latestStable` is the v4 base URL, the literal
`latest` segment and the OS bundle; for an unsupported OS it is null. -/
theorem claim_C5_latestStable :
    (∀ utils : OcUtils,
        latestStable utils "Linux"
          = some (utils.openshiftV4BaseUrl ++ "/" ++ "latest" ++ "/"
              ++ "linux/oc.tar.gz")
        ∧ latestStable utils "Darwin"
          = some (utils.openshiftV4BaseUrl ++ "/" ++ "latest" ++ "/"
              ++ "macosx/oc.tar.gz")
        ∧ latestStable utils "Windows_NT"
          = some (utils.openshiftV4BaseUrl ++ "/" ++ "latest" ++ "/"
              ++ "windows/oc.zip"))
    ∧ (∀ (utils : OcUtils) (osType : String), osType ≠ "Linux" →
        osType ≠ "Darwin" → osType ≠ "Windows_NT" →
        latestStable utils osType = none) := by
  refine ⟨fun utils => ⟨rfl, rfl, rfl⟩, ?_⟩
  intro utils os h1 h2 h3
  simp [latestStable, getOcBundleByOS, h1, h2, h3]

/-- C5 witness: an unsupported OS identifier resolves to null. -/
theorem claim_C5_witness :
    latestStable sampleUtils "fakeOS" = none :=
  claim_C5_latestStable.2 sampleUtils "fakeOS" (by decide) (by decide)
    (by decide)

/-- C6: the bundle lookup returns the fixed platform-segment/archive-filename
bundle for each of the three supported OS identifiers, and null for every
other string (the Lean function is total and pure, so it is stable across
calls and never throws). -/
theorem claim_C6_bundleDescriptor :
    getOcBundleByOS "Linux" = some (LINUX ++ "/" ++ OC_TAR_GZ)
    ∧ getOcBundleByOS "Darwin" = some (MACOSX ++ "/" ++ OC_TAR_GZ)
    ∧ getOcBundleByOS "Windows_NT" = some (WIN ++ "/" ++ OC_ZIP)
    ∧ (∀ osType : String, osType ≠ "Linux" → osType ≠ "Darwin" →
        osType ≠ "Windows_NT" → getOcBundleByOS osType = none) := by
  refine ⟨rfl, rfl, rfl, ?_⟩
  intro os h1 h2 h3
  simp [getOcBundleByOS, h1, h2, h3]

/-- C6 witness: an unsupported OS identifier yields null. -/
theorem claim_C6_witness : getOcBundleByOS "fakeOS" = none :=
  claim_C6_bundleDescriptor.2.2.2 "fakeOS" (by decide) (by decide) (by decide)

/-- C7: major 3 selects the v3 base URL and major 4 the v4 base URL, while
any other major, as in input `5.0.0`, yields null for every OS identifier. -/
theorem claim_C7_majorMirror :
    ∀ (utils : OcUtils) (osType : String),
      ocBundleURL utils "5.0.0" osType false = none
      ∧ ocBundleURL utils "3.11.0" "Linux" false
          = some (utils.openshiftV3BaseUrl ++ "/" ++ "3.11.0" ++ "/"
              ++ "linux/oc.tar.gz")
      ∧ ocBundleURL utils "4.1.0" "Linux" false
          = some (utils.openshiftV4BaseUrl ++ "/" ++ "4.1.0" ++ "/"
              ++ "linux/oc.tar.gz") :=
  fun _ _ => ⟨rfl, rfl, rfl⟩

/-- C8: extraction dispatches on the archive type derived from the archive
filename: `.zip`, `.tgz` and `.tar.gz` are handled, and any other derived
type throws `unknown archive format` followed by the archive path. -/
theorem claim_C8_extractDispatch :
    (∀ (downloadDir archive : String),
        (archiveTypeOf archive = ".zip" →
          extractDispatch (pathJoin downloadDir archive) (archiveTypeOf archive)
            = .ok .zip)
        ∧ (archiveTypeOf archive = ".tgz" ∨ archiveTypeOf archive = ".tar.gz" →
          extractDispatch (pathJoin downloadDir archive) (archiveTypeOf archive)
            = .ok .targz)
        ∧ (archiveTypeOf archive ≠ ".zip" → archiveTypeOf archive ≠ ".tgz" →
          archiveTypeOf archive ≠ ".tar.gz" →
          extractDispatch (pathJoin downloadDir archive) (archiveTypeOf archive)
            = .error ("unknown archive format " ++ pathJoin downloadDir archive)))
    ∧ archiveTypeOf "oc.zip" = ".zip" ∧ archiveTypeOf "oc.tgz" = ".tgz"
    ∧ archiveTypeOf "oc.tar.gz" = ".tar.gz" := by
  refine ⟨?_, by decide, by decide, by decide⟩
  intro dir archive
  refine ⟨fun h => by simp [extractDispatch, h], fun h => ?_,
    fun h1 h2 h3 => by simp [extractDispatch, h1, h2, h3]⟩
  rcases h with h | h
  · simp [extractDispatch, h]
  · simp [extractDispatch, h]

/-- C8 witness: a `.rar` archive throws the unknown-archive-format error with
the archive path in the message. -/
theorem claim_C8_witness :
    extractDispatch (pathJoin "/dl" "oc.rar") (archiveTypeOf "oc.rar")
      = .error ("unknown archive format " ++ pathJoin "/dl" "oc.rar") :=
  (claim_C8_extractDispatch.1 "/dl" "oc.rar").2.2 (by decide) (by decide)
    (by decide)

/-- C9: local-reuse matching is a case-insensitive exact comparison of the
regex-extracted local version against the requested one; every extracted
version starts with `v`, so a request written without the `v` prefix, such as
`4.1.0`, never matches and reuse is skipped; with no requested version any
found path is returned. -/
theorem claim_C9_localReuse :
    (∀ (getVer : String → Option String) (p v lv : String), v ≠ "" →
        getVer p = some lv →
        (getLocalOcPath getVer (some v) (some p) = some p
          ↔ jsToLower lv = jsToLower v))
    ∧ (∀ (r1 r2 : Option ExecResult) (p : String),
        getLocalOcPath (fun _ => getOcVersion r1 r2) (some "4.1.0") (some p)
          = none)
    ∧ (∀ (getVer : String → Option String) (w : Option String),
        getLocalOcPath getVer none w = w) := by
  refine ⟨?_, ?_, ?_⟩
  · intro getVer p v lv hv hg
    by_cases hc : jsToLower lv = jsToLower v
    · simp [getLocalOcPath, hv, hg, hc]
    · simp [getLocalOcPath, hv, hg, hc]
  · intro r1 r2 p
    cases hver : getOcVersion r1 r2 with
    | none => simp [getLocalOcPath, hver]
    | some lv =>
      obtain ⟨t, rfl⟩ := getOcVersion_starts_v r1 r2 lv hver
      have hvlow : asciiLowerChar 'v' = 'v' := by decide
      have hlow : jsToLower (String.mk ('v' :: t)) ≠ jsToLower "4.1.0" := by
        intro hcontra
        have hd := congrArg String.data hcontra
        simp [jsToLower, hvlow] at hd
        exact absurd hd.1 (by decide)
      simp [getLocalOcPath, hver, hlow]
  · intro getVer w
    cases w <;> rfl

/-- C9 witness: a case-insensitively equal version is reused, the unprefixed
request `4.1.0` is never reused against a real `oc version` output, and with
no requested version the found path is returned. -/
theorem claim_C9_witness :
    getLocalOcPath (fun _ => some "v4.1.0") (some "V4.1.0") (some "/usr/bin/oc")
        = some "/usr/bin/oc"
    ∧ getLocalOcPath
        (fun _ => getOcVersion (some ⟨"oc v4.1.0+b4261e0", ""⟩) none)
        (some "4.1.0") (some "/usr/bin/oc") = none
    ∧ getLocalOcPath (fun _ => none) none (some "/usr/bin/oc")
        = some "/usr/bin/oc" :=
  ⟨(claim_C9_localReuse.1 (fun _ => some "v4.1.0") "/usr/bin/oc" "V4.1.0"
      "v4.1.0" (by decide) rfl).mpr (by decide),
   claim_C9_localReuse.2.1 (some ⟨"oc v4.1.0+b4261e0", ""⟩) none "/usr/bin/oc",
   claim_C9_localReuse.2.2 (fun _ => none) (some "/usr/bin/oc")⟩

/-- C10: major extraction is not anchored: on `3x4.1.0` the first digit run
`3` is not followed by a dot and is skipped, the major is `4`, and the
resolved URL uses the v4 base while embedding the full original string as the
version segment. -/
theorem claim_C10_majorNotAnchored :
    majorExec "3x4.1.0".data = some ['4']
    ∧ (∀ utils : OcUtils,
        ocBundleURL utils "3x4.1.0" "Linux" false
          = some (utils.openshiftV4BaseUrl ++ "/" ++ "3x4.1.0" ++ "/"
              ++ "linux/oc.tar.gz")) :=
  ⟨by decide, fun _ => rfl⟩

end OcInstall
